import Mathlib

/-!
Shallow embedding of the task-record store of `src/task_manager.py.py`
(class `GoogleSheetsManager` plus the record-constructing parts of `main`).

The backing store (a remote spreadsheet reached through an external client
library) is idealized at the schema declared by the code: the six text
columns hold strings and the `closed` column holds a boolean.  A fetched
row is a `RawRecord` whose fields are `Option`s: `none` models a column
absent from the sheet (the Python `dict.get` default path), `some v` a
present cell value.  Backing-store failures are modelled by outcome and
environment values: `LoadOutcome` enumerates the ways `load_tasks` can go
(no credentials, spreadsheet not found, other API error, or a successful
fetch of rows), and `Env.saveOk` says whether the save round trip to the
store succeeds.
-/

namespace TaskApp

/-- A spreadsheet cell value: text or boolean (the two cell types the
schema uses: six text columns and the boolean `closed` column). -/
inductive Value where
  | str (s : String)
  | bool (b : Bool)
deriving DecidableEq

/-- An in-memory task record, the dict built by `load_tasks` /
the form handlers: keys `description, building, tcd, comments, category,
last_updated, closed`. -/
structure Task where
  description : String
  building : String
  tcd : String
  comments : String
  category : String
  last_updated : String
  closed : Bool
deriving DecidableEq

/-- A raw row as returned by the sheet client (`worksheet.get_all_records()`):
each schema field is present (`some`) or absent (`none`, column missing
from the sheet header). -/
structure RawRecord where
  description : Option String
  building : Option String
  tcd : Option String
  comments : Option String
  category : Option String
  last_updated : Option String
  closed : Option Bool
deriving DecidableEq

/-- `CATEGORIES` from the source: category code mapped to display color,
including the pseudo-category `All`. -/
def CATEGORIES : List (String × String) :=
  [("APV", "#90ee90"), ("UAPV", "#d2b48c"), ("EV", "#ffb6c1"), ("KPI", "#d3d3d3"),
   ("NTC", "#ee82ee"), ("ACT", "#ffa500"), ("NTU", "#d8bfd8"), ("OT", "#ffff99"),
   ("PRJ", "#87ceeb"), ("CT", "#ff4c4c"), ("All", "#f0f0f0")]

/-- `BUILDINGS` from the source. -/
def BUILDINGS : List String :=
  ["OH", "OHWE", "OHNE", "ASH", "LC", "LSH", "SAB", "WH", "KIS", "APTS1", "APAB",
   "APSV", "AAE", "ETS1", "ETS2", "ETS3", "OHAC", "NHAC", "ODCR", "CAU", "CPG",
   "PTZ2", "AA", "EC", "SC", "NHQ", "NEC", "SCU", "RO"]

/-- The options offered by the category select boxes:
`[cat for cat in CATEGORIES.keys() if cat != "All"]`. -/
def categoryOptions : List String :=
  (CATEGORIES.map Prod.fst).filter (fun cat => cat ≠ "All")

/-- Python truthiness of an optional text cell: an absent field contributes
nothing to `any(record.values())`; a present string is truthy iff non-empty. -/
def optStrTruthy : Option String → Bool
  | none => false
  | some s => !s.isEmpty

/-- `any(record.values())` over a raw row: true iff some present field is
truthy (non-empty string, or boolean `True`). -/
def RawRecord.anyTruthy (r : RawRecord) : Bool :=
  optStrTruthy r.description || optStrTruthy r.building || optStrTruthy r.tcd ||
  optStrTruthy r.comments || optStrTruthy r.category || optStrTruthy r.last_updated ||
  r.closed.getD false

/-- The `formatted_record` dict built inside the `load_tasks` loop:
`record.get(key, default)` with default `""` for the text fields, `"OT"`
for `category`, `False` for `closed`. -/
def formatRecord (r : RawRecord) : Task :=
  { description := r.description.getD ""
  , building := r.building.getD ""
  , tcd := r.tcd.getD ""
  , comments := r.comments.getD ""
  , category := r.category.getD "OT"
  , last_updated := r.last_updated.getD ""
  , closed := r.closed.getD false }

/-- The `for record in records` loop of `load_tasks`: append the formatted
record whenever `any(record.values())`. -/
def load_tasks_loop : List RawRecord → List Task
  | [] => []
  | r :: rest =>
      if r.anyTruthy then formatRecord r :: load_tasks_loop rest
      else load_tasks_loop rest

/-- How a call to `load_tasks` can go, following its branches: credentials
unavailable (`get_credentials` returned `None` after showing an error),
`gspread.SpreadsheetNotFound`, any other exception, or a successful fetch
returning raw rows. -/
inductive LoadOutcome where
  | noCreds
  | notFound
  | apiError (msg : String)
  | ok (rows : List RawRecord)

/-- Whether the outcome is one of the failure branches. -/
def LoadOutcome.isErr : LoadOutcome → Bool
  | .ok _ => false
  | _ => true

/-- What `load_tasks` hands back: the returned list, plus whether an error
message was surfaced to the user (`st.error`). -/
structure LoadResult where
  tasks : List Task
  errorShown : Bool
deriving DecidableEq

/-- `load_tasks`: on any failure an error is shown and `[]` is returned;
on success the fetched rows are filtered and formatted by the loop.
The function is total: no exception escapes this boundary. -/
def load_tasks : LoadOutcome → LoadResult
  | .noCreds => ⟨[], true⟩
  | .notFound => ⟨[], true⟩
  | .apiError _ => ⟨[], true⟩
  | .ok rows => ⟨load_tasks_loop rows, false⟩

/-- The header row written by `save_tasks`. -/
def headers : List String :=
  ["description", "building", "tcd", "comments", "category", "last_updated", "closed"]

/-- The header row as sheet cells. -/
def headerRow : List Value := headers.map Value.str

/-- The `row` list appended for one task by `save_tasks`
(`task.get(key, default)`: a `Task` always has every key, so the defaults
never fire here). -/
def taskRow (t : Task) : List Value :=
  [.str t.description, .str t.building, .str t.tcd, .str t.comments,
   .str t.category, .str t.last_updated, .bool t.closed]

/-- The full sheet content after a successful `save_tasks`: the sheet is
cleared, then — only `if tasks:` is non-empty — the header row and one row
per task are appended in order. -/
def save_content (tasks : List Task) : List (List Value) :=
  if tasks.isEmpty then [] else headerRow :: tasks.map taskRow

/-- Backing-store environment for a save round trip: `saveOk` is true when
credentials resolve, the spreadsheet opens, and the clear/append calls all
succeed. -/
structure Env where
  saveOk : Bool
deriving DecidableEq

/-- Result of `save_tasks`: the returned success flag, and the new sheet
content when the write went through (`none` when it failed). -/
structure SaveResult where
  ok : Bool
  written : Option (List (List Value))
deriving DecidableEq

/-- `save_tasks`: on success clears the sheet and writes `save_content`,
returning `True`; on any failure shows an error and returns `False`. -/
def save_tasks (env : Env) (tasks : List Task) : SaveResult :=
  if env.saveOk then ⟨true, some (save_content tasks)⟩ else ⟨false, none⟩

/-- Python list item assignment `xs[i] = t`: indices in `[0, len)` set
directly, indices in `[-len, 0)` set position `len + i`, anything else
raises `IndexError` (modelled as `none`). -/
def pySetItem (xs : List Task) (i : Int) (t : Task) : Option (List Task) :=
  if 0 ≤ i ∧ i < (xs.length : Int) then some (xs.set i.toNat t)
  else if -(xs.length : Int) ≤ i ∧ i < 0 then some (xs.set (i + xs.length).toNat t)
  else none

/-- `add_or_update_task(task_data, selected_index)`: with an index, assign
`self.tasks[selected_index] = task_data` (an `IndexError` is caught by the
surrounding `try`, an error is shown, and `False` is returned with the list
unchanged); with no index, append.  On the non-raising paths `save_tasks`
is called on the full list and its flag returned.  Returns the new
in-memory list and the returned flag. -/
def add_or_update_task (env : Env) (tasks : List Task) (task_data : Task)
    (selected_index : Option Int) : List Task × Bool :=
  match selected_index with
  | some i =>
      match pySetItem tasks i task_data with
      | some tasks2 => (tasks2, (save_tasks env tasks2).ok)
      | none => (tasks, false)
  | none =>
      let tasks2 := tasks ++ [task_data]
      (tasks2, (save_tasks env tasks2).ok)

/-- `delete_task(index)`: `if 0 <= index < len(self.tasks)` delete the
element and return the save flag, else return `False` with the list
unchanged and no save attempted. -/
def delete_task (env : Env) (tasks : List Task) (index : Int) : List Task × Bool :=
  if 0 ≤ index ∧ index < (tasks.length : Int) then
    let tasks2 := tasks.eraseIdx index.toNat
    (tasks2, (save_tasks env tasks2).ok)
  else (tasks, false)

/-- Python `str.strip()` with no argument: remove leading and trailing
whitespace. -/
def pyStrip (s : String) : String :=
  ⟨List.reverse (List.dropWhile Char.isWhitespace
      (List.reverse (List.dropWhile Char.isWhitespace s.data)))⟩

/-- The `task_data` dict built by the main form's add/update button
(source lines 328-336): description stripped, `last_updated` set to the
current timestamp string, `closed` set to `category == "CT"`. -/
def mkTask (description building tcd comments category now : String) : Task :=
  { description := pyStrip description
  , building := building
  , tcd := tcd
  , comments := comments
  , category := category
  , last_updated := now
  , closed := category == "CT" }

/-- The `task_data` dict built by the sidebar quick-add form (source lines
206-214): stripped description, first building, empty tcd/comments,
`closed` set to `quick_cat == "CT"`. -/
def mkQuickTask (quick_desc quick_cat now : String) : Task :=
  { description := pyStrip quick_desc
  , building := BUILDINGS.getD 0 ""
  , tcd := ""
  , comments := ""
  , category := quick_cat
  , last_updated := now
  , closed := quick_cat == "CT" }

/-- Outcome of the main form's add/update button handler. -/
structure SubmitResult where
  tasks : List Task
  saved : Bool
  validationErrorShown : Bool
deriving DecidableEq

/-- The main form's add/update button handler (source lines 324-341):
`if not description.strip()` (the stripped string is falsy, i.e. empty)
show a validation error and do nothing else; otherwise build `task_data`
and call `add_or_update_task`. -/
def submitTask (env : Env) (tasks : List Task)
    (description building tcd comments category now : String)
    (idx : Option Int) : SubmitResult :=
  if pyStrip description = "" then ⟨tasks, false, true⟩
  else
    let p := add_or_update_task env tasks
      (mkTask description building tcd comments category now) idx
    ⟨p.1, p.2, false⟩

/-- Modelled from the spec: reading back a sheet that `save_tasks` wrote
(standard header row, one seven-cell row per record) yields, per data row,
a raw record with every schema field present and carrying the written
value.  The sheet client itself is an external collaborator, not part of
`src/`. -/
def rawOfTask (t : Task) : RawRecord :=
  { description := some t.description
  , building := some t.building
  , tcd := some t.tcd
  , comments := some t.comments
  , category := some t.category
  , last_updated := some t.last_updated
  , closed := some t.closed }

/-- An environment in which the backing-store round trip succeeds. -/
def envOk : Env := ⟨true⟩

/-- An environment in which the backing-store round trip fails. -/
def envFail : Env := ⟨false⟩

/-- A concrete task, as the form handler would build it. -/
def sampleTask : Task := mkTask "Fix HVAC" "OH" "" "" "ACT" "2026-01-01 09:00:00"

/-- A second concrete task. -/
def sampleTask2 : Task := mkTask "Replace filter" "ASH" "" "" "OT" "2026-01-02 09:00:00"

/-- A raw row with every schema column absent. -/
def emptyRaw : RawRecord := ⟨none, none, none, none, none, none, none⟩

/-- A raw row whose category cell holds a value outside the fixed set. -/
def badCategoryRaw : RawRecord :=
  ⟨some "Fix door", none, none, none, some "ZZZ", none, none⟩

/-- A raw row with an empty description cell but a non-empty comments cell. -/
def commentOnlyRaw : RawRecord :=
  ⟨some "", none, none, some "note", none, none, none⟩

lemma save_tasks_ok (env : Env) (tasks : List Task) :
    (save_tasks env tasks).ok = env.saveOk := by
  cases env with
  | mk b => cases b <;> simp [save_tasks]

lemma add_none_eq (env : Env) (tasks : List Task) (t : Task) :
    add_or_update_task env tasks t none = (tasks ++ [t], env.saveOk) := by
  simp [add_or_update_task, save_tasks_ok]

lemma add_some_in_range (env : Env) (tasks : List Task) (t : Task) (i : Int)
    (h0 : 0 ≤ i) (hl : i < (tasks.length : Int)) :
    add_or_update_task env tasks t (some i) = (tasks.set i.toNat t, env.saveOk) := by
  simp [add_or_update_task, pySetItem, h0, hl, save_tasks_ok]

lemma add_some_neg_in_range (env : Env) (tasks : List Task) (t : Task) (i : Int)
    (h0 : -(tasks.length : Int) ≤ i) (hl : i < 0) :
    add_or_update_task env tasks t (some i)
      = (tasks.set (i + tasks.length).toNat t, env.saveOk) := by
  have h1 : ¬ (0 ≤ i) := by omega
  simp [add_or_update_task, pySetItem, h0, hl, h1, save_tasks_ok]

lemma add_some_out_of_range (env : Env) (tasks : List Task) (t : Task) (i : Int)
    (h : i < -(tasks.length : Int) ∨ (tasks.length : Int) ≤ i) :
    add_or_update_task env tasks t (some i) = (tasks, false) := by
  have h1 : ¬ (0 ≤ i ∧ i < (tasks.length : Int)) := by omega
  have h2 : ¬ (-(tasks.length : Int) ≤ i ∧ i < 0) := by omega
  simp only [add_or_update_task, pySetItem, if_neg h1, if_neg h2]

lemma delete_in_range (env : Env) (tasks : List Task) (i : Int)
    (h0 : 0 ≤ i) (hl : i < (tasks.length : Int)) :
    delete_task env tasks i = (tasks.eraseIdx i.toNat, env.saveOk) := by
  simp [delete_task, h0, hl, save_tasks_ok]

lemma delete_out_of_range (env : Env) (tasks : List Task) (i : Int)
    (h : ¬ (0 ≤ i ∧ i < (tasks.length : Int))) :
    delete_task env tasks i = (tasks, false) := by
  simp only [delete_task, if_neg h]

/-- Claim C1, counterexample: with an out-of-range index the code does not
append — `self.tasks[0] = task_data` on the empty list raises `IndexError`,
which is caught; `False` is returned and the collection stays empty, so the
size does not increase by 1 as the claim states. -/
theorem upsert_out_of_range_cex :
    add_or_update_task envOk [] sampleTask (some 0) = ([], false)
    ∧ (add_or_update_task envOk [] sampleTask (some 0)).1.length ≠ 1 := by
  constructor
  · rfl
  · decide

/-- Claim C1 (amended): `upsert(r)` with no index appends `r` and returns the
save flag; `upsert(r, i)` with `i` in `[0, length)` replaces the record at
position `i` (size unchanged) and returns the save flag; with `i` in
`[-length, 0)` it replaces the record at position `length + i` (Python
negative indexing); with `i` outside `[-length, length)` it returns false
without calling save and leaves the collection unchanged. -/
theorem add_or_update_task_spec (env : Env) (tasks : List Task) (t : Task) :
    (add_or_update_task env tasks t none = (tasks ++ [t], env.saveOk))
    ∧ (∀ i : Int, 0 ≤ i → i < (tasks.length : Int) →
        add_or_update_task env tasks t (some i) = (tasks.set i.toNat t, env.saveOk)
        ∧ (tasks.set i.toNat t).length = tasks.length)
    ∧ (∀ i : Int, -(tasks.length : Int) ≤ i → i < 0 →
        add_or_update_task env tasks t (some i)
          = (tasks.set (i + tasks.length).toNat t, env.saveOk))
    ∧ (∀ i : Int, i < -(tasks.length : Int) ∨ (tasks.length : Int) ≤ i →
        add_or_update_task env tasks t (some i) = (tasks, false)) := by
  refine ⟨add_none_eq env tasks t, ?_, ?_, ?_⟩
  · intro i h0 hl
    exact ⟨add_some_in_range env tasks t i h0 hl, List.length_set tasks i.toNat t⟩
  · intro i h0 hl
    exact add_some_neg_in_range env tasks t i h0 hl
  · intro i h
    exact add_some_out_of_range env tasks t i h

/-- Claim C1 witness: on `[sampleTask]`, replacing at index 0 keeps size 1
and returns the save flag; index 5 is out of range and fails without
mutating. -/
theorem add_or_update_task_spec_witness :
    add_or_update_task envOk [sampleTask] sampleTask2 (some 0) = ([sampleTask2], true)
    ∧ add_or_update_task envOk [sampleTask] sampleTask2 (some 5) = ([sampleTask], false)
    ∧ add_or_update_task envOk [sampleTask] sampleTask2 none
        = ([sampleTask, sampleTask2], true) := by
  have h := add_or_update_task_spec envOk [sampleTask] sampleTask2
  refine ⟨?_, ?_, ?_⟩
  · have h1 := (h.2.1 0 (by decide) (by decide)).1
    simpa using h1
  · have h2 := h.2.2.2 5 (by right; decide)
    simpa using h2
  · simpa using h.1

/-- Claim C2: `delete_task(i)` with `i` out of `[0, length)` returns false
without calling save (the result does not depend on the save environment)
and leaves the collection unmodified; with `i` in range it removes the
record at position `i`, decreasing the size by exactly 1, then calls save
and returns its success flag. -/
theorem delete_task_spec (env : Env) (tasks : List Task) (i : Int) :
    (¬ (0 ≤ i ∧ i < (tasks.length : Int)) → delete_task env tasks i = (tasks, false))
    ∧ (0 ≤ i → i < (tasks.length : Int) →
        delete_task env tasks i = (tasks.eraseIdx i.toNat, env.saveOk)
        ∧ (tasks.eraseIdx i.toNat).length = tasks.length - 1) := by
  constructor
  · intro h
    exact delete_out_of_range env tasks i h
  · intro h0 hl
    refine ⟨delete_in_range env tasks i h0 hl, ?_⟩
    have hi : i.toNat < tasks.length := by omega
    simp [List.length_eraseIdx, hi]

/-- Claim C2 witness: deleting index 0 from a one-element collection empties
it and returns the save flag; index 1 is out of range and fails without
mutating. -/
theorem delete_task_spec_witness :
    delete_task envOk [sampleTask] 0 = ([], true)
    ∧ delete_task envOk [sampleTask] 1 = ([sampleTask], false) := by
  constructor
  · have h := (delete_task_spec envOk [sampleTask] 0).2 (by decide) (by decide)
    simpa using h.1
  · have h := (delete_task_spec envOk [sampleTask] 1).1 (by decide)
    simpa using h

/-- Claim C10: when the backing-store save fails, `add_or_update_task`
returns false yet the in-memory collection keeps the appended or replaced
record, and an in-range `delete_task` returns false yet the record stays
removed — the in-memory state is not rolled back on save failure. -/
theorem save_failure_non_atomic (env : Env) (hfail : env.saveOk = false)
    (tasks : List Task) (t : Task) (i : Int) :
    add_or_update_task env tasks t none = (tasks ++ [t], false)
    ∧ (0 ≤ i → i < (tasks.length : Int) →
        add_or_update_task env tasks t (some i) = (tasks.set i.toNat t, false)
        ∧ delete_task env tasks i = (tasks.eraseIdx i.toNat, false)) := by
  constructor
  · rw [add_none_eq, hfail]
  · intro h0 hl
    constructor
    · rw [add_some_in_range env tasks t i h0 hl, hfail]
    · rw [delete_in_range env tasks i h0 hl, hfail]

/-- Claim C10 witness: with a failing save environment, an append and an
in-range delete both return false while the mutation persists in memory. -/
theorem save_failure_non_atomic_witness :
    add_or_update_task envFail [] sampleTask none = ([sampleTask], false)
    ∧ delete_task envFail [sampleTask] 0 = ([], false) := by
  have h1 := save_failure_non_atomic envFail rfl [] sampleTask 0
  have h2 := save_failure_non_atomic envFail rfl [sampleTask] sampleTask 0
  constructor
  · simpa using h1.1
  · have := (h2.2 (by decide) (by decide)).2
    simpa using this

lemma load_tasks_loop_eq (rows : List RawRecord) :
    load_tasks_loop rows = (rows.filter RawRecord.anyTruthy).map formatRecord := by
  induction rows with
  | nil => rfl
  | cons r rest ih =>
      cases h : r.anyTruthy <;> simp [load_tasks_loop, h, ih]

/-- Claim C7: every failure branch of `load_tasks` (credentials unavailable,
spreadsheet not found, any other API error) surfaces an error message and
returns the empty collection; `load_tasks` is a total function, so no
exception escapes the store boundary. -/
theorem load_fails_soft (o : LoadOutcome) (h : o.isErr = true) :
    load_tasks o = ⟨[], true⟩ := by
  cases o with
  | noCreds => rfl
  | notFound => rfl
  | apiError msg => rfl
  | ok rows => simp [LoadOutcome.isErr] at h

/-- Claim C7 witness: the not-found branch returns the empty collection with
an error shown. -/
theorem load_fails_soft_witness :
    load_tasks .notFound = ⟨[], true⟩ :=
  load_fails_soft .notFound rfl

/-- Claim C4: `load_tasks` on successfully fetched rows returns, in row
order, exactly the rows with at least one non-empty/true-ish field value,
each formatted with the documented defaults; and `formatRecord` fills an
absent field with its default: `""` for the text fields, `"OT"` for
category, `false` for closed. -/
theorem load_filters_and_defaults (rows : List RawRecord) :
    (load_tasks (.ok rows)).tasks = (rows.filter RawRecord.anyTruthy).map formatRecord
    ∧ ∀ r : RawRecord,
        (r.description = none → (formatRecord r).description = "")
        ∧ (r.building = none → (formatRecord r).building = "")
        ∧ (r.tcd = none → (formatRecord r).tcd = "")
        ∧ (r.comments = none → (formatRecord r).comments = "")
        ∧ (r.category = none → (formatRecord r).category = "OT")
        ∧ (r.last_updated = none → (formatRecord r).last_updated = "")
        ∧ (r.closed = none → (formatRecord r).closed = false) := by
  constructor
  · exact load_tasks_loop_eq rows
  · intro r
    refine ⟨?_, ?_, ?_, ?_, ?_, ?_, ?_⟩ <;> intro h <;> simp [formatRecord, h]

/-- Claim C4 witness: a two-row fetch keeps only the row with a truthy
field, and an all-absent row formats to all defaults. -/
theorem load_filters_and_defaults_witness :
    (load_tasks (.ok [commentOnlyRaw, emptyRaw])).tasks
      = ([commentOnlyRaw, emptyRaw].filter RawRecord.anyTruthy).map formatRecord
    ∧ (formatRecord emptyRaw).description = ""
    ∧ (formatRecord emptyRaw).building = ""
    ∧ (formatRecord emptyRaw).tcd = ""
    ∧ (formatRecord emptyRaw).comments = ""
    ∧ (formatRecord emptyRaw).category = "OT"
    ∧ (formatRecord emptyRaw).last_updated = ""
    ∧ (formatRecord emptyRaw).closed = false := by
  have h := load_filters_and_defaults [commentOnlyRaw, emptyRaw]
  have h2 := h.2 emptyRaw
  exact ⟨h.1, h2.1 rfl, h2.2.1 rfl, h2.2.2.1 rfl, h2.2.2.2.1 rfl,
    h2.2.2.2.2.1 rfl, h2.2.2.2.2.2.1 rfl, h2.2.2.2.2.2.2 rfl⟩

lemma formatRecord_rawOfTask (t : Task) : formatRecord (rawOfTask t) = t := rfl

lemma optStrTruthy_some_getD (o : Option String) (d : String)
    (h : optStrTruthy o = true) : optStrTruthy (some (o.getD d)) = true := by
  cases o with
  | none => simp [optStrTruthy] at h
  | some s => simpa [optStrTruthy] using h

lemma anyTruthy_rawOfTask (r : RawRecord) (h : r.anyTruthy = true) :
    (rawOfTask (formatRecord r)).anyTruthy = true := by
  obtain ⟨d, b, tc, cm, cat, lu, cl⟩ := r
  simp only [RawRecord.anyTruthy, rawOfTask, formatRecord, Bool.or_eq_true,
    Option.getD_some] at h ⊢
  rcases h with ((((((h | h) | h) | h) | h) | h) | h)
  · exact Or.inl <| Or.inl <| Or.inl <| Or.inl <| Or.inl <| Or.inl <|
      optStrTruthy_some_getD d "" h
  · exact Or.inl <| Or.inl <| Or.inl <| Or.inl <| Or.inl <| Or.inr <|
      optStrTruthy_some_getD b "" h
  · exact Or.inl <| Or.inl <| Or.inl <| Or.inl <| Or.inr <|
      optStrTruthy_some_getD tc "" h
  · exact Or.inl <| Or.inl <| Or.inl <| Or.inr <| optStrTruthy_some_getD cm "" h
  · exact Or.inl <| Or.inl <| Or.inr <| optStrTruthy_some_getD cat "OT" h
  · exact Or.inl <| Or.inr <| optStrTruthy_some_getD lu "" h
  · exact Or.inr h

lemma loop_roundtrip (rows : List RawRecord) :
    load_tasks_loop ((load_tasks_loop rows).map rawOfTask) = load_tasks_loop rows := by
  induction rows with
  | nil => rfl
  | cons r rest ih =>
      cases h : r.anyTruthy with
      | false => simp [load_tasks_loop, h, ih]
      | true =>
          have h2 := anyTruthy_rawOfTask r h
          simp [load_tasks_loop, h, h2, formatRecord_rawOfTask, ih]

/-- Claim C5: round-trip — saving the collection returned by `load_tasks`
and loading again yields the same collection.  Reading back a saved sheet
is modelled by `rawOfTask` (every schema field present with the written
value), per the backing-store schema of the spec; all store operations are
assumed to succeed. -/
theorem save_load_roundtrip (rows : List RawRecord) :
    load_tasks (.ok ((load_tasks (.ok rows)).tasks.map rawOfTask))
      = load_tasks (.ok rows) := by
  simp [load_tasks, loop_roundtrip]

/-- Claim C3, counterexample: a successful save of the empty collection
writes nothing at all — the `if tasks:` guard skips the header row, so the
backing store is left empty rather than holding the header row alone. -/
theorem save_empty_no_header_cex :
    (save_tasks envOk []).written = some []
    ∧ (save_tasks envOk []).written ≠ some [headerRow] := by
  constructor
  · rfl
  · decide

/-- Claim C3 (amended): a successful save of a non-empty collection leaves
the backing store containing exactly the header row
`description, building, tcd, comments, category, last_updated, closed`
followed by one row per record in collection order, all previous content
cleared; a successful save of the empty collection clears the store and
writes nothing (no header row). -/
theorem save_content_spec (env : Env) (tasks : List Task) (hok : env.saveOk = true) :
    (save_tasks env tasks).ok = true
    ∧ (save_tasks env tasks).written = some (save_content tasks)
    ∧ (tasks ≠ [] → save_content tasks = headerRow :: tasks.map taskRow)
    ∧ save_content [] = ([] : List (List Value)) := by
  refine ⟨by simp [save_tasks, hok], by simp [save_tasks, hok], ?_, rfl⟩
  intro h
  simp [save_content, h]

/-- Claim C3 witness: saving a one-task collection writes the header row
and that task's row; saving the empty collection writes nothing. -/
theorem save_content_spec_witness :
    (save_tasks envOk [sampleTask]).written = some [headerRow, taskRow sampleTask]
    ∧ save_content [] = ([] : List (List Value)) := by
  have h := save_content_spec envOk [sampleTask] rfl
  constructor
  · rw [h.2.1, h.2.2.1 (by simp)]
    rfl
  · exact h.2.2.2

/-- Claim C6: both record-construction sites (the main form handler and the
sidebar quick-add) set `closed` to `category == "CT"` and never take it as
an input, so the record produced by an add satisfies
`closed == (category == "CT")`, and an add appends exactly that record. -/
theorem closed_derived_from_category (d b tc cm cat now : String) :
    (mkTask d b tc cm cat now).closed = (cat == "CT")
    ∧ (mkQuickTask d cat now).closed = (cat == "CT")
    ∧ ∀ (env : Env) (tasks : List Task),
        (add_or_update_task env tasks (mkTask d b tc cm cat now) none).1.getLast?
          = some (mkTask d b tc cm cat now) := by
  refine ⟨rfl, rfl, ?_⟩
  intro env tasks
  rw [add_none_eq]
  simp

/-- Claim C8, counterexample: `load_tasks` does not validate a present
category cell — a row whose category cell holds `"ZZZ"` is returned with
category `"ZZZ"`, which is outside the fixed ten-code set. -/
theorem load_category_unvalidated_cex :
    (load_tasks (.ok [badCategoryRaw])).tasks.map Task.category = ["ZZZ"]
    ∧ "ZZZ" ∉ categoryOptions := by
  constructor
  · rfl
  · decide

/-- Claim C8 (amended): the category selectors offer exactly the fixed
ten-code set, every record built by the add/update handlers with a category
drawn from that set carries a category in the set, and `load_tasks` fills
an absent category with `"OT"` (in the set); but a present category cell is
passed through unvalidated, so a loaded record may carry a category outside
the set. -/
theorem category_membership_amended :
    categoryOptions = ["APV", "UAPV", "EV", "KPI", "NTC", "ACT", "NTU", "OT", "PRJ", "CT"]
    ∧ (∀ cat, cat ∈ categoryOptions →
        ∀ d b tc cm now, (mkTask d b tc cm cat now).category ∈ categoryOptions
          ∧ (mkQuickTask d cat now).category ∈ categoryOptions)
    ∧ (∀ r : RawRecord, r.category = none → (formatRecord r).category ∈ categoryOptions) := by
  refine ⟨by decide, ?_, ?_⟩
  · intro cat hc d b tc cm now
    exact ⟨hc, hc⟩
  · intro r h
    have hcat : (formatRecord r).category = "OT" := by simp [formatRecord, h]
    rw [hcat]
    decide

/-- Claim C8 witness: a record built with category `"CT"` has its category
in the selector set, and a loaded row with no category cell gets `"OT"`,
also in the set. -/
theorem category_membership_amended_witness :
    (mkTask "x" "OH" "" "" "CT" "t").category ∈ categoryOptions
    ∧ (formatRecord emptyRaw).category ∈ categoryOptions := by
  have h := category_membership_amended
  exact ⟨(h.2.1 "CT" (by decide) "x" "OH" "" "" "t").1, h.2.2 emptyRaw rfl⟩

/-- Claim C9, counterexample: `load_tasks` does not validate descriptions —
a row with an empty description cell but a non-empty comments cell is kept,
yielding a record whose description is empty. -/
theorem load_empty_description_cex :
    (load_tasks (.ok [commentOnlyRaw])).tasks
      = [{ description := "", building := "", tcd := "", comments := "note",
           category := "OT", last_updated := "", closed := false }]
    ∧ (load_tasks (.ok [commentOnlyRaw])).tasks.map Task.description = [""] := by
  constructor
  · rfl
  · rfl

/-- Claim C9 (amended): an add/update whose description is empty after
trimming is blocked before the store layer — a validation error is shown,
no save is attempted and the collection is unchanged; with a non-empty
trimmed description the built record's description is non-empty and the
add goes through; but `load_tasks` does not validate descriptions, so a
loaded record may have an empty description. -/
theorem description_validation_amended (env : Env) (tasks : List Task)
    (d b tc cm cat now : String) (idx : Option Int) :
    (pyStrip d = "" → submitTask env tasks d b tc cm cat now idx = ⟨tasks, false, true⟩)
    ∧ (pyStrip d ≠ "" →
        (mkTask d b tc cm cat now).description ≠ ""
        ∧ submitTask env tasks d b tc cm cat now none
            = ⟨tasks ++ [mkTask d b tc cm cat now], env.saveOk, false⟩) := by
  constructor
  · intro h
    simp [submitTask, h]
  · intro h
    constructor
    · simpa [mkTask] using h
    · simp [submitTask, h, add_none_eq]

/-- Claim C9 witness: a whitespace-only description blocks the add and
leaves the collection unchanged; a real description goes through and the
stored record keeps it. -/
theorem description_validation_amended_witness :
    submitTask envOk [] "   " "OH" "" "" "OT" "t" none = ⟨[], false, true⟩
    ∧ submitTask envOk [] "Fix" "OH" "" "" "OT" "t" none
        = ⟨[mkTask "Fix" "OH" "" "" "OT" "t"], true, false⟩ := by
  have h1 := (description_validation_amended envOk [] "   " "OH" "" "" "OT" "t" none).1
  have h2 := (description_validation_amended envOk [] "Fix" "OH" "" "" "OT" "t" none).2
  constructor
  · exact h1 (by decide)
  · have h3 := (h2 (by decide)).2
    simpa [envOk] using h3

end TaskApp
